import Mathlib

/-!
Shallow embedding of the quiz-session core of the adaptive-learner app.

Sources embedded here:
- the Quiz page component (`generateQuiz`, `handleAnswer`, `handleNext`,
  `handlePrevious`, `handleSubmit`);
- the Performance page (`calculateStats`, `clearHistory`) together with the
  relational store semantics of the migration (cascade delete);
- the `generate-quiz` edge-function handler.

External effects (the supabase client, the oracle HTTP call, JSON.parse) are
modelled as explicit environment values passed to the embedded functions; the
functions themselves reproduce the source's control flow and data flow.
-/

/-- One generated question, as in the Quiz component's `Question` interface:
question text, an options record with the four labels A-D, the correct answer
label, and an explanation. -/
structure QuestionOptions where
  A : String
  B : String
  C : String
  D : String
deriving Repr, DecidableEq

/-- The `Question` interface of the Quiz component. -/
structure Question where
  question : String
  options : QuestionOptions
  correct_answer : String
  explanation : String
deriving Repr, DecidableEq

/-- In-memory state of the Quiz component while a quiz is in progress:
`questions`, the `currentQuestion` cursor and the sparse `answers` record
(JS object keyed by question index; an absent key is `none`). -/
structure QuizState where
  questions : List Question
  currentQuestion : Nat
  answers : Nat → Option String

/-- `handleAnswer`: `setAnswers({ ...answers, [currentQuestion]: value })` —
overwrite the entry at the current index, keep every other entry. -/
def handleAnswer (s : QuizState) (value : String) : QuizState :=
  { s with answers := fun j => if j = s.currentQuestion then some value else s.answers j }

/-- `handleNext`: advance the cursor only when `currentQuestion < questions.length - 1`.
(With `questions.length = 0`, JS compares against `-1` and Nat subtraction
gives `0`; in both cases the guard is false at cursor `0`.) -/
def handleNext (s : QuizState) : QuizState :=
  if s.currentQuestion < s.questions.length - 1 then
    { s with currentQuestion := s.currentQuestion + 1 }
  else s

/-- `handlePrevious`: move the cursor back only when `currentQuestion > 0`. -/
def handlePrevious (s : QuizState) : QuizState :=
  if 0 < s.currentQuestion then
    { s with currentQuestion := s.currentQuestion - 1 }
  else s

/-- JS strict equality `userAnswer === correctAnswer` where `userAnswer` is
`string | undefined` (`answers[i]`) and `correctAnswer` is a string:
`undefined === s` is false for every string `s`. -/
def jsStrictEqOptStr (a : Option String) (b : String) : Bool :=
  match a with
  | some s => s == b
  | none => false

/-- The score tally of `handleSubmit`: a loop over `i = 0 .. questions.length-1`
incrementing `score` whenever `answers[i] === questions[i].correct_answer`. -/
def computeScore (qs : List Question) (ans : Nat → Option String) : Nat :=
  qs.enum.foldl
    (fun score p => if jsStrictEqOptStr (ans p.1) p.2.correct_answer then score + 1 else score)
    0

/-- The row `handleSubmit` inserts into `quiz_questions` for question `i`. -/
structure QuestionInsert where
  attempt_id : Nat
  question_text : String
  options : QuestionOptions
  correct_answer : String
  user_answer : Option String
  explanation : String
deriving Repr, DecidableEq

/-- Store results visible to `handleSubmit`: the supabase client resolves each
call with a `\x7b data, error }`-shaped value rather than throwing on a database
error. `insertError i` is the error (if any) returned by the i-th
`quiz_questions` insert; `updateError` is the error returned by the
`quiz_attempts` score update. -/
structure StoreEnv where
  insertError : Nat → Option String
  updateError : Option String

/-- Observable outcome of `handleSubmit`: the computed score, the rows passed
to the per-question inserts, the error toast (if any) and the navigation
target (if any). -/
structure SubmitOutcome where
  score : Nat
  inserted : List QuestionInsert
  errorToast : Option String
  navigatedTo : Option String
deriving Repr, DecidableEq

/-- `handleSubmit` of the Quiz component: tally the score over all questions,
insert one `quiz_questions` row per question (the source awaits each insert but
discards its result, so `env.insertError` never influences the outcome), then
update the attempt's score; on an update error, toast and return without
navigating, otherwise navigate to the results page.
`user_answer` is `userAnswer || null`: an absent answer (and the falsy empty
string) is stored as null. -/
def handleSubmit (attemptId : Nat) (qs : List Question) (ans : Nat → Option String)
    (env : StoreEnv) : SubmitOutcome :=
  let score := computeScore qs ans
  let inserted := qs.enum.map (fun p =>
    { attempt_id := attemptId
      question_text := p.2.question
      options := p.2.options
      correct_answer := p.2.correct_answer
      user_answer := match ans p.1 with
        | some a => if a = "" then none else some a
        | none => none
      explanation := p.2.explanation })
  match env.updateError with
  | some _ =>
      { score := score, inserted := inserted
        errorToast := some "Failed to save score. Please try again."
        navigatedTo := none }
  | none =>
      { score := score, inserted := inserted
        errorToast := none
        navigatedTo := some "/results" }

/-- The row `generateQuiz` inserts into `quiz_attempts` (the `score` column is
omitted from the insert; the schema defaults it to 0). -/
structure AttemptInsertPayload where
  user_id : Nat
  skill_level : String
  subjects : List String
  question_count : Nat
  total_questions : Nat
deriving Repr, DecidableEq

/-- Environment of `generateQuiz`: the result of the `generate-quiz` function
invocation (`.error msg` when the client returns an error, otherwise
`data?.questions`, which is `none` when the response has no `questions` field —
note an empty array is truthy in JS, hence `some []` takes the success path),
the auth session's user (if any), and the result of the attempt insert. -/
structure GenerateEnv where
  invoke : Except String (Option (List Question))
  session : Option Nat
  attemptInsert : Except String Nat

/-- Observable outcome of `generateQuiz`. -/
structure GenerateOutcome where
  requestedSubject : String
  questions : List Question
  attemptCreated : Option AttemptInsertPayload
  attemptId : Option Nat
  errorToast : Option String
  navigatedTo : Option String
deriving Repr, DecidableEq

/-- `generateQuiz` of the Quiz component: invoke the edge function; on an
invocation error, toast `error.message || "Failed to generate quiz. Please try
again."` and navigate back to the dashboard. On success with a `questions`
payload, set the questions and — when a user session exists — insert one
`quiz_attempts` row with `total_questions` set to the payload's length; an
insert error is thrown, toasted and also navigates back to the dashboard. -/
def generateQuiz (skillLevel : String) (subjects : List String) (questionCount : Nat)
    (env : GenerateEnv) : GenerateOutcome :=
  let subject :=
    if subjects.length = 1 then subjects.headD "" else String.intercalate ", " subjects
  match env.invoke with
  | .error msg =>
      { requestedSubject := subject, questions := [], attemptCreated := none, attemptId := none
        errorToast := some (if msg = "" then "Failed to generate quiz. Please try again." else msg)
        navigatedTo := some "/dashboard" }
  | .ok none =>
      { requestedSubject := subject, questions := [], attemptCreated := none, attemptId := none
        errorToast := none, navigatedTo := none }
  | .ok (some qs) =>
      match env.session with
      | none =>
          { requestedSubject := subject, questions := qs, attemptCreated := none
            attemptId := none, errorToast := none, navigatedTo := none }
      | some uid =>
          match env.attemptInsert with
          | .error msg =>
              { requestedSubject := subject, questions := qs, attemptCreated := none
                attemptId := none
                errorToast := some (if msg = "" then "Failed to generate quiz. Please try again." else msg)
                navigatedTo := some "/dashboard" }
          | .ok aid =>
              { requestedSubject := subject, questions := qs
                attemptCreated := some
                  { user_id := uid, skill_level := skillLevel, subjects := subjects
                    question_count := questionCount, total_questions := qs.length }
                attemptId := some aid, errorToast := none, navigatedTo := none }

/-- A JS number as it occurs in the statistics computation: a finite value
(modelled exactly as a rational — all inputs are small integers and the only
inexact operation, division, is modelled exactly), `NaN`, or a signed
infinity (JS division of a nonzero number by zero). -/
inductive JsNum where
  | fin (q : ℚ)
  | posInf
  | negInf
  | nan
deriving Repr, DecidableEq

/-- JS division as used in `calculateStats`: `0/0` is `NaN`, `x/0` for
nonzero `x` is a signed infinity. Non-finite operands do not occur in this
code path (both operands are finite sums or fields). -/
def jsDiv : JsNum → JsNum → JsNum
  | .fin a, .fin b =>
      if b = 0 then (if a = 0 then .nan else if 0 < a then .posInf else .negInf)
      else .fin (a / b)
  | _, _ => .nan

/-- JS multiplication (`NaN` propagates; infinity times a nonzero finite
value keeps or flips sign; infinity times zero is `NaN`). -/
def jsMul : JsNum → JsNum → JsNum
  | .fin a, .fin b => .fin (a * b)
  | .posInf, .fin b => if b = 0 then .nan else if 0 < b then .posInf else .negInf
  | .negInf, .fin b => if b = 0 then .nan else if 0 < b then .negInf else .posInf
  | .fin a, .posInf => if a = 0 then .nan else if 0 < a then .posInf else .negInf
  | .fin a, .negInf => if a = 0 then .nan else if 0 < a then .negInf else .posInf
  | .posInf, .posInf => .posInf
  | .posInf, .negInf => .negInf
  | .negInf, .posInf => .negInf
  | .negInf, .negInf => .posInf
  | _, _ => .nan

/-- `Math.round`: for a finite value, round half toward positive infinity
(`⌊x + 1/2⌋`); `NaN` and infinities are returned unchanged. -/
def jsRound : JsNum → JsNum
  | .fin q => .fin ((⌊q + 1/2⌋ : ℤ) : ℚ)
  | x => x

/-- `Math.max` on two values: `NaN` if either argument is `NaN`, otherwise the
larger with infinities ordered as usual. -/
def jsMax2 : JsNum → JsNum → JsNum
  | .nan, _ => .nan
  | _, .nan => .nan
  | .posInf, _ => .posInf
  | _, .posInf => .posInf
  | .negInf, y => y
  | x, .negInf => x
  | .fin a, .fin b => .fin (max a b)

/-- `Math.max(...xs)`: the fold of pairwise max starting from `Math.max()`,
which is `-Infinity`. -/
def jsMaxList (xs : List JsNum) : JsNum :=
  xs.foldl jsMax2 .negInf

/-- A `quiz_attempts` row as read by the Performance page. -/
structure AttemptRow where
  id : Nat
  user_id : Nat
  skill_level : String
  subjects : List String
  score : Nat
  total_questions : Nat
deriving Repr, DecidableEq

/-- The statistics record returned by `calculateStats`. -/
structure Stats where
  total : Nat
  avgScore : JsNum
  bestScore : JsNum
deriving Repr, DecidableEq

/-- `calculateStats` of the Performance page: zero stats for an empty list;
otherwise `avgScore = Math.round((totalScore / totalQuestions) * 100)` over
the summed scores and totals, and `bestScore = Math.max(...)` of each
attempt's own rounded percentage. The per-attempt division is unguarded. -/
def calculateStats (attempts : List AttemptRow) : Stats :=
  if attempts.length = 0 then { total := 0, avgScore := .fin 0, bestScore := .fin 0 }
  else
    let totalQuizzes := attempts.length
    let totalScore : Nat := attempts.foldl (fun sum a => sum + a.score) 0
    let totalQuestions : Nat := attempts.foldl (fun sum a => sum + a.total_questions) 0
    let avgScore := jsRound (jsMul (jsDiv (.fin totalScore) (.fin totalQuestions)) (.fin 100))
    let bestScore := jsMaxList (attempts.map (fun a =>
      jsRound (jsMul (jsDiv (.fin a.score) (.fin a.total_questions)) (.fin 100))))
    { total := totalQuizzes, avgScore := avgScore, bestScore := bestScore }

/-- A `quiz_questions` row as stored by the schema (content fields beyond the
foreign key are irrelevant to the cascade and kept minimal). -/
structure QuestionRow where
  id : Nat
  attempt_id : Nat
  question_text : String
  correct_answer : String
  user_answer : Option String
deriving Repr, DecidableEq

/-- The two quiz tables of the relational store. -/
structure Database where
  attempts : List AttemptRow
  questions : List QuestionRow
deriving Repr, DecidableEq

/-- `DELETE FROM quiz_attempts WHERE user_id = uid` together with the
schema's `ON DELETE CASCADE` on `quiz_questions.attempt_id`: every question
row referencing a deleted attempt is deleted too. -/
def deleteAttempts (uid : Nat) (db : Database) : Database :=
  let deletedIds := (db.attempts.filter (fun a => a.user_id == uid)).map (fun a => a.id)
  { attempts := db.attempts.filter (fun a => !(a.user_id == uid))
    questions := db.questions.filter (fun q => !(deletedIds.contains q.attempt_id)) }

/-- `list-attempts`: the Performance page's select over `quiz_attempts`, which
row-level security scopes to the caller's own rows (ordering by creation time
is irrelevant to the properties proved here). -/
def listAttempts (uid : Nat) (db : Database) : List AttemptRow :=
  db.attempts.filter (fun a => a.user_id == uid)

/-- `list-questions`: the select over `quiz_questions` for one attempt id. -/
def listQuestions (attemptId : Nat) (db : Database) : List QuestionRow :=
  db.questions.filter (fun q => q.attempt_id == attemptId)

/-- `clearHistory` of the Performance page: with no session, toast an error
and leave the store untouched; with a session, delete all of the caller's
attempts (cascading their questions). Returns the store and the error toast. -/
def clearHistory (session : Option Nat) (db : Database) : Database × Option String :=
  match session with
  | none => (db, some "You must be logged in to clear history")
  | some uid => (deleteAttempts uid db, none)

/-- A JSON value, as produced by `JSON.parse` in the edge function. -/
inductive Json where
  | null : Json
  | bool (b : Bool) : Json
  | num (q : ℚ) : Json
  | str (s : String) : Json
  | arr (elems : List Json) : Json
  | obj (fields : List (String × Json)) : Json

/-- The request body of the `generate-quiz` edge function. -/
structure GenRequest where
  subject : String
  skillLevel : String
  questionCount : Nat

/-- The oracle (AI gateway) response as seen by the handler: the HTTP success
flag and status, and — for a success response — the result of
`JSON.parse` applied to `data.choices[0].message.content` after stripping
code fences (`.error msg` models any exception thrown in that chain, whose
message the catch-all turns into the 500 body). -/
structure OracleResponse where
  ok : Bool
  status : Nat
  content : Except String Json

/-- An HTTP response of the edge function (a `Response` with no explicit
status is a 200). -/
structure HttpResponse where
  status : Nat
  body : Json

/-- The `generate-quiz` edge-function handler, for a well-formed request body:
500 with a fixed message when `LOVABLE_API_KEY` is absent; for a non-ok oracle
response, 429 and 402 are forwarded with their fixed messages and any other
status becomes a 500 `AI Gateway error`; otherwise the parsed content is
returned as-is under `questions` (no validation of count, labels, or fields),
and a parse failure becomes a 500 with the thrown message. The second
component counts oracle calls made (the handler performs no retries). -/
def generateQuizHandler (apiKey : Option String) (req : GenRequest)
    (oracle : OracleResponse) : HttpResponse × Nat :=
  match apiKey with
  | none => ({ status := 500, body := .obj [("error", .str "LOVABLE_API_KEY is not configured")] }, 0)
  | some _ =>
      if oracle.ok = false then
        if oracle.status = 429 then
          ({ status := 429
             body := .obj [("error", .str "Rate limit exceeded. Please try again later.")] }, 1)
        else if oracle.status = 402 then
          ({ status := 402
             body := .obj [("error", .str "Payment required. Please add credits to your workspace.")] }, 1)
        else
          ({ status := 500
             body := .obj [("error", .str ("AI Gateway error: " ++ toString oracle.status))] }, 1)
      else
        match oracle.content with
        | .error msg => ({ status := 500, body := .obj [("error", .str msg)] }, 1)
        | .ok j => ({ status := 200, body := .obj [("questions", j)] }, 1)

/-- Field lookup in a JSON object. -/
def jLookup (fields : List (String × Json)) (k : String) : Option Json :=
  (fields.find? (fun p => p.1 == k)).map (fun p => p.2)

/-- The fixed option label set. -/
def optionLabels : List String := ["A", "B", "C", "D"]

/-- Modelled from the spec: the per-question validation the spec's result
guarantee describes for the generator client — exactly the four option labels
A-D, a correct_answer that is one of the question's option labels, and
non-empty question text. The source handler performs no such validation; this
predicate only states the claimed property. -/
def specValidQuestion (j : Json) : Bool :=
  match j with
  | .obj fields =>
      (match jLookup fields "question" with
       | some (.str s) => !(s == "")
       | _ => false) &&
      (match jLookup fields "options" with
       | some (.obj opts) =>
           let ks := opts.map (fun p => p.1)
           optionLabels.all (fun lb => ks.contains lb) &&
           ks.all (fun k => optionLabels.contains k) &&
           (ks.length == 4)
       | _ => false) &&
      (match jLookup fields "correct_answer" with
       | some (.str c) =>
           match jLookup fields "options" with
           | some (.obj opts) => (opts.map (fun p => p.1)).contains c
           | _ => false
       | _ => false)
  | _ => false

lemma foldl_count {α : Type} (p : α → Bool) (l : List α) : ∀ n : Nat,
    l.foldl (fun s x => if p x then s + 1 else s) n = n + l.countP p := by
  induction l with
  | nil => intro n; simp
  | cons x xs ih =>
      intro n
      simp only [List.foldl_cons, List.countP_cons, ih]
      cases h : p x <;> simp [h] <;> omega

lemma jsStrictEqOptStr_eq_beq (a : Option String) (b : String) :
    jsStrictEqOptStr a b = (a == some b) := by
  cases a <;> rfl

lemma computeScore_eq_countP (qs : List Question) (ans : Nat → Option String) :
    computeScore qs ans = qs.enum.countP (fun p => ans p.1 == some p.2.correct_answer) := by
  unfold computeScore
  rw [foldl_count]
  simp only [Nat.zero_add]
  congr 1
  funext p
  rw [jsStrictEqOptStr_eq_beq]

lemma handleSubmit_score (attemptId : Nat) (qs : List Question)
    (ans : Nat → Option String) (env : StoreEnv) :
    (handleSubmit attemptId qs ans env).score = computeScore qs ans := by
  unfold handleSubmit
  cases env.updateError <;> rfl

/-- C1: at submission, the computed score equals the number of question
positions whose recorded user answer is string-equal (case-sensitive) to that
question's correct answer; unanswered positions never count (in particular an
all-unanswered attempt scores 0). -/
theorem submit_score_counts_correct_answers (attemptId : Nat) (qs : List Question)
    (ans : Nat → Option String) (env : StoreEnv) :
    (handleSubmit attemptId qs ans env).score
      = qs.enum.countP (fun p => ans p.1 == some p.2.correct_answer)
    ∧ ((∀ i, ans i = none) → (handleSubmit attemptId qs ans env).score = 0) := by
  rw [handleSubmit_score, computeScore_eq_countP]
  refine ⟨rfl, fun h => ?_⟩
  rw [List.countP_eq_zero]
  intro p _
  simp [h p.1]

/-- Witness for C1 at a concrete input: an attempt with no recorded answers
scores 0. -/
theorem submit_score_counts_correct_answers_witness :
    (handleSubmit 1 [⟨"2+2?", ⟨"1", "2", "3", "4"⟩, "D", "arithmetic"⟩]
       (fun _ => none) ⟨fun _ => none, none⟩).score = 0 :=
  (submit_score_counts_correct_answers 1 _ _ _).2 (fun _ => rfl)

/-- C7: the score computed at submission satisfies
`0 ≤ score ≤ total_questions`: the submitted score never exceeds the number of
generated questions, and whenever `generateQuiz` creates an attempt, its
`total_questions` field equals that number (the attempt's score itself starts
at the schema default 0). -/
theorem submitted_score_bounded (attemptId : Nat) (qs : List Question)
    (ans : Nat → Option String) (env : StoreEnv) :
    (0 ≤ (handleSubmit attemptId qs ans env).score
      ∧ (handleSubmit attemptId qs ans env).score ≤ qs.length)
    ∧ ∀ (sk : String) (subs : List String) (cnt : Nat) (genv : GenerateEnv)
        (p : AttemptInsertPayload),
        (generateQuiz sk subs cnt genv).attemptCreated = some p →
          p.total_questions = (generateQuiz sk subs cnt genv).questions.length := by
  constructor
  · refine ⟨Nat.zero_le _, ?_⟩
    rw [handleSubmit_score, computeScore_eq_countP]
    calc qs.enum.countP (fun p => ans p.1 == some p.2.correct_answer)
        ≤ qs.enum.length := List.countP_le_length _
      _ = qs.length := List.enum_length
  · intro sk subs cnt genv p hp
    obtain ⟨inv, sess, ains⟩ := genv
    rcases inv with msg | oq
    · simp [generateQuiz] at hp
    · rcases oq with _ | qlist
      · simp [generateQuiz] at hp
      · rcases sess with _ | uid
        · simp [generateQuiz] at hp
        · rcases ains with msg | aid
          · simp [generateQuiz] at hp
          · simp only [generateQuiz, Option.some.injEq] at hp
            rw [← hp]
            rfl

/-- Witness for C7's creation clause at a concrete input: a created attempt
records `total_questions` equal to the generated question count. -/
theorem submitted_score_bounded_witness :
    ((0 ≤ (handleSubmit 1 [⟨"2+2?", ⟨"1", "2", "3", "4"⟩, "D", "arithmetic"⟩]
          (fun _ => some "D") ⟨fun _ => none, none⟩).score
      ∧ (handleSubmit 1 [⟨"2+2?", ⟨"1", "2", "3", "4"⟩, "D", "arithmetic"⟩]
          (fun _ => some "D") ⟨fun _ => none, none⟩).score ≤ 1))
    ∧ (⟨7, "Beginner", ["Java"], 1, 1⟩ : AttemptInsertPayload).total_questions
        = (generateQuiz "Beginner" ["Java"] 1
            ⟨.ok (some [⟨"2+2?", ⟨"1", "2", "3", "4"⟩, "D", "arithmetic"⟩]), some 7,
              .ok 3⟩).questions.length :=
  ⟨(submitted_score_bounded 1 [⟨"2+2?", ⟨"1", "2", "3", "4"⟩, "D", "arithmetic"⟩]
      (fun _ => some "D") ⟨fun _ => none, none⟩).1,
   (submitted_score_bounded 1 [⟨"2+2?", ⟨"1", "2", "3", "4"⟩, "D", "arithmetic"⟩]
      (fun _ => some "D") ⟨fun _ => none, none⟩).2 "Beginner" ["Java"] 1
     ⟨.ok (some [⟨"2+2?", ⟨"1", "2", "3", "4"⟩, "D", "arithmetic"⟩]), some 7, .ok 3⟩
     ⟨7, "Beginner", ["Java"], 1, 1⟩ rfl⟩

/-- C8: in-progress navigation is clamped (previous at index 0 and next at the
last index are no-ops, and the cursor never leaves `[0, total)`), and
answering overwrites only the current index, leaving every other index, the
cursor and the question list unchanged. -/
theorem cursor_clamped_and_answer_frame (s : QuizState) :
    (s.currentQuestion = 0 → handlePrevious s = s)
    ∧ (s.currentQuestion = s.questions.length - 1 → handleNext s = s)
    ∧ (s.currentQuestion < s.questions.length →
        (handleNext s).currentQuestion < s.questions.length
        ∧ (handlePrevious s).currentQuestion < s.questions.length)
    ∧ (∀ v : String,
        (handleAnswer s v).answers s.currentQuestion = some v
        ∧ (∀ j, j ≠ s.currentQuestion → (handleAnswer s v).answers j = s.answers j)
        ∧ (handleAnswer s v).currentQuestion = s.currentQuestion
        ∧ (handleAnswer s v).questions = s.questions) := by
  refine ⟨fun h0 => ?_, fun hl => ?_, fun hb => ⟨?_, ?_⟩, fun v => ⟨?_, fun j hj => ?_, rfl, rfl⟩⟩
  · unfold handlePrevious
    rw [h0]
    rfl
  · unfold handleNext
    rw [hl]
    simp
  · unfold handleNext
    split
    · show s.currentQuestion + 1 < s.questions.length
      omega
    · exact hb
  · unfold handlePrevious
    split
    · show s.currentQuestion - 1 < s.questions.length
      omega
    · exact hb
  · simp [handleAnswer]
  · simp [handleAnswer, hj]

/-- Witness for C8 at a concrete one-question state: previous at index 0 and
next at the last index are both no-ops, and answering records the label. -/
theorem cursor_clamped_and_answer_frame_witness :
    handlePrevious ⟨[⟨"q", ⟨"a", "b", "c", "d"⟩, "A", "e"⟩], 0, fun _ => none⟩
      = (⟨[⟨"q", ⟨"a", "b", "c", "d"⟩, "A", "e"⟩], 0, fun _ => none⟩ : QuizState)
    ∧ handleNext ⟨[⟨"q", ⟨"a", "b", "c", "d"⟩, "A", "e"⟩], 0, fun _ => none⟩
      = (⟨[⟨"q", ⟨"a", "b", "c", "d"⟩, "A", "e"⟩], 0, fun _ => none⟩ : QuizState)
    ∧ (handleAnswer ⟨[⟨"q", ⟨"a", "b", "c", "d"⟩, "A", "e"⟩], 0, fun _ => none⟩ "A").answers 0
      = some "A" :=
  ⟨(cursor_clamped_and_answer_frame _).1 rfl,
   (cursor_clamped_and_answer_frame _).2.1 rfl,
   ((cursor_clamped_and_answer_frame _).2.2.2 "A").1⟩

/-- C5: when the generation invocation fails (for any error message, e.g. the
oracle returning HTTP 429), an error toast is shown, the session navigates
away to the dashboard, and no quiz attempt is created. -/
theorem generation_failure_aborts_without_attempt (skillLevel : String)
    (subjects : List String) (questionCount : Nat) (env : GenerateEnv) (msg : String)
    (h : env.invoke = .error msg) :
    ((generateQuiz skillLevel subjects questionCount env).errorToast).isSome = true
    ∧ (generateQuiz skillLevel subjects questionCount env).navigatedTo = some "/dashboard"
    ∧ (generateQuiz skillLevel subjects questionCount env).attemptCreated = none
    ∧ (generateQuiz skillLevel subjects questionCount env).attemptId = none := by
  simp [generateQuiz, h]

/-- Witness for C5 at a concrete input: a failed invocation (as produced by a
429 from the edge function) yields a toast, navigation to the dashboard and no
attempt. -/
theorem generation_failure_aborts_without_attempt_witness :
    ((generateQuiz "Intermediate" ["Mathematics"] 5
        ⟨.error "Edge Function returned a non-2xx status code", some 7, .ok 1⟩).errorToast).isSome = true
    ∧ (generateQuiz "Intermediate" ["Mathematics"] 5
        ⟨.error "Edge Function returned a non-2xx status code", some 7, .ok 1⟩).navigatedTo = some "/dashboard"
    ∧ (generateQuiz "Intermediate" ["Mathematics"] 5
        ⟨.error "Edge Function returned a non-2xx status code", some 7, .ok 1⟩).attemptCreated = none
    ∧ (generateQuiz "Intermediate" ["Mathematics"] 5
        ⟨.error "Edge Function returned a non-2xx status code", some 7, .ok 1⟩).attemptId = none :=
  generation_failure_aborts_without_attempt "Intermediate" ["Mathematics"] 5 _ _ rfl

/-- Counterexample to C4: a failing question insert during submission is
silently swallowed — with the first insert returning an error and the score
update succeeding, no error toast is shown and the session still navigates to
the results stage. (The source awaits each insert but discards its
`\x7b data, error }` result.) -/
theorem insert_failure_silently_swallowed :
    (handleSubmit 1 [⟨"2+2?", ⟨"1", "2", "3", "4"⟩, "D", "arithmetic"⟩]
        (fun _ => none) ⟨fun _ => some "insert failed", none⟩).errorToast = none
    ∧ (handleSubmit 1 [⟨"2+2?", ⟨"1", "2", "3", "4"⟩, "D", "arithmetic"⟩]
        (fun _ => none) ⟨fun _ => some "insert failed", none⟩).navigatedTo = some "/results"
    ∧ (⟨fun _ => some "insert failed", none⟩ : StoreEnv).insertError 0 = some "insert failed" :=
  ⟨rfl, rfl, rfl⟩

/-- C4 as amended: the submission outcome is entirely independent of the
per-question insert results (insert failures are silently swallowed and the
session proceeds); only a score-update failure is surfaced — with its own
distinct message — and it blocks navigation to the results stage. -/
theorem submit_error_surfacing (attemptId : Nat) (qs : List Question)
    (ans : Nat → Option String) (f g : Nat → Option String) (u : Option String) :
    handleSubmit attemptId qs ans ⟨f, u⟩ = handleSubmit attemptId qs ans ⟨g, u⟩
    ∧ (∀ e, u = some e →
        (handleSubmit attemptId qs ans ⟨f, u⟩).errorToast
            = some "Failed to save score. Please try again."
        ∧ (handleSubmit attemptId qs ans ⟨f, u⟩).navigatedTo = none)
    ∧ (u = none →
        (handleSubmit attemptId qs ans ⟨f, u⟩).errorToast = none
        ∧ (handleSubmit attemptId qs ans ⟨f, u⟩).navigatedTo = some "/results") := by
  refine ⟨rfl, fun e he => ?_, fun hn => ?_⟩
  · subst he
    exact ⟨rfl, rfl⟩
  · subst hn
    exact ⟨rfl, rfl⟩

/-- Witness for the amended C4 at concrete inputs: a failing score update
toasts the save-score message and does not navigate; a successful one
navigates to the results stage. -/
theorem submit_error_surfacing_witness :
    ((handleSubmit 1 [⟨"2+2?", ⟨"1", "2", "3", "4"⟩, "D", "arithmetic"⟩]
        (fun _ => some "D") ⟨fun _ => none, some "update failed"⟩).errorToast
      = some "Failed to save score. Please try again."
    ∧ (handleSubmit 1 [⟨"2+2?", ⟨"1", "2", "3", "4"⟩, "D", "arithmetic"⟩]
        (fun _ => some "D") ⟨fun _ => none, some "update failed"⟩).navigatedTo = none)
    ∧ ((handleSubmit 1 [⟨"2+2?", ⟨"1", "2", "3", "4"⟩, "D", "arithmetic"⟩]
        (fun _ => some "D") ⟨fun _ => none, none⟩).errorToast = none
    ∧ (handleSubmit 1 [⟨"2+2?", ⟨"1", "2", "3", "4"⟩, "D", "arithmetic"⟩]
        (fun _ => some "D") ⟨fun _ => none, none⟩).navigatedTo = some "/results") :=
  ⟨(submit_error_surfacing 1 _ _ _ (fun _ => none) _).2.1 "update failed" rfl,
   (submit_error_surfacing 1 _ _ _ (fun _ => none) _).2.2 rfl⟩

lemma jsMax2_nan_left (x : JsNum) : jsMax2 .nan x = .nan := by
  cases x <;> rfl

lemma jsMax2_nan_right (x : JsNum) : jsMax2 x .nan = .nan := by
  cases x <;> rfl

lemma foldl_jsMax2_nan (l : List JsNum) : l.foldl jsMax2 .nan = .nan := by
  induction l with
  | nil => rfl
  | cons x xs ih => rw [List.foldl_cons, jsMax2_nan_left]; exact ih

lemma foldl_jsMax2_mem_nan : ∀ (l : List JsNum) (acc : JsNum),
    JsNum.nan ∈ l → l.foldl jsMax2 acc = .nan := by
  intro l
  induction l with
  | nil => intro acc h; cases h
  | cons x xs ih =>
      intro acc h
      rw [List.foldl_cons]
      rcases List.mem_cons.mp h with h | h
      · rw [← h, jsMax2_nan_right]
        exact foldl_jsMax2_nan xs
      · exact ih _ h

lemma foldl_jsMax2_fin : ∀ (qs : List ℚ) (q : ℚ),
    (qs.map JsNum.fin).foldl jsMax2 (.fin q) = .fin (qs.foldl max q) := by
  intro qs
  induction qs with
  | nil => intro q; rfl
  | cons x xs ih =>
      intro q
      rw [List.map_cons, List.foldl_cons, List.foldl_cons]
      exact ih (max q x)

lemma jsMaxList_map_fin (q : ℚ) (qs : List ℚ) :
    jsMaxList ((q :: qs).map JsNum.fin) = .fin (qs.foldl max q) := by
  rw [jsMaxList, List.map_cons, List.foldl_cons]
  exact foldl_jsMax2_fin qs q

lemma foldl_max_mem : ∀ (qs : List ℚ) (q : ℚ), qs.foldl max q = q ∨ qs.foldl max q ∈ qs := by
  intro qs
  induction qs with
  | nil => intro q; left; rfl
  | cons x xs ih =>
      intro q
      rw [List.foldl_cons]
      rcases ih (max q x) with h | h
      · rcases max_choice q x with hq | hx
        · left; rw [h, hq]
        · right; rw [h, hx]; exact List.mem_cons_self _ _
      · right; exact List.mem_cons_of_mem _ h

lemma le_foldl_max : ∀ (qs : List ℚ) (q : ℚ),
    q ≤ qs.foldl max q ∧ ∀ x ∈ qs, x ≤ qs.foldl max q := by
  intro qs
  induction qs with
  | nil => intro q; exact ⟨le_refl _, fun x hx => absurd hx (List.not_mem_nil x)⟩
  | cons y ys ih =>
      intro q
      rw [List.foldl_cons]
      obtain ⟨h1, h2⟩ := ih (max q y)
      refine ⟨le_trans (le_max_left q y) h1, fun x hx => ?_⟩
      rcases List.mem_cons.mp hx with h | h
      · rw [h]; exact le_trans (le_max_right q y) h1
      · exact h2 x h

lemma foldl_add_eq_sum {α : Type} (f : α → Nat) (l : List α) : ∀ n : Nat,
    l.foldl (fun s a => s + f a) n = n + (l.map f).sum := by
  induction l with
  | nil => intro n; simp
  | cons x xs ih =>
      intro n
      rw [List.foldl_cons, List.map_cons, List.sum_cons, ih]
      omega

lemma sum_pos_of_forall_pos (f : AttemptRow → Nat) (l : List AttemptRow)
    (hne : l ≠ []) (hpos : ∀ a ∈ l, 0 < f a) : 0 < (l.map f).sum := by
  obtain ⟨a, as, rfl⟩ := List.exists_cons_of_ne_nil hne
  rw [List.map_cons, List.sum_cons]
  have := hpos a (List.mem_cons_self a as)
  omega

lemma jsPercent_fin (s t : Nat) (h : 0 < t) :
    jsRound (jsMul (jsDiv (.fin s) (.fin t)) (.fin 100))
      = .fin ((⌊100 * (s : ℚ) / (t : ℚ) + 1/2⌋ : ℤ) : ℚ) := by
  have ht : (t : ℚ) ≠ 0 := by
    exact_mod_cast Nat.pos_iff_ne_zero.mp h
  rw [jsDiv, if_neg ht, jsMul, jsRound]
  congr 2
  ring_nf

lemma calculateStats_cons (a : AttemptRow) (as : List AttemptRow) :
    calculateStats (a :: as) =
      { total := (a :: as).length
        avgScore := jsRound (jsMul (jsDiv
          (.fin (((a :: as).foldl (fun sum x => sum + x.score) 0 : ℕ) : ℚ))
          (.fin (((a :: as).foldl (fun sum x => sum + x.total_questions) 0 : ℕ) : ℚ))) (.fin 100))
        bestScore := jsMaxList ((a :: as).map (fun x =>
          jsRound (jsMul (jsDiv (.fin x.score) (.fin x.total_questions)) (.fin 100)))) } := by
  rfl

lemma jsMaxList_fin_comp {α : Type} (g : α → ℚ) (a : α) (as : List α) :
    jsMaxList ((a :: as).map (fun x => JsNum.fin (g x))) = .fin ((as.map g).foldl max (g a)) := by
  have h : (a :: as).map (fun x => JsNum.fin (g x)) = ((a :: as).map g).map JsNum.fin := by
    rw [List.map_map]
    rfl
  rw [h, List.map_cons]
  exact jsMaxList_map_fin _ _

lemma foldl_max_spec {α : Type} (g : α → ℚ) (a : α) (as : List α) :
    (as.map g).foldl max (g a) ∈ (a :: as).map g
    ∧ ∀ x ∈ (a :: as).map g, x ≤ (as.map g).foldl max (g a) := by
  constructor
  · rcases foldl_max_mem (as.map g) (g a) with h | h
    · rw [h, List.map_cons]
      exact List.mem_cons_self _ _
    · rw [List.map_cons]
      exact List.mem_cons_of_mem _ h
  · intro x hx
    obtain ⟨h1, h2⟩ := le_foldl_max (as.map g) (g a)
    rw [List.map_cons] at hx
    rcases List.mem_cons.mp hx with h | h
    · rw [h]
      exact h1
    · exact h2 x h

/-- C2: the performance summary has `count` equal to the number of attempts;
an empty history yields all-zero statistics; otherwise the average percentage
is the rounded weighted average `round(100 * sum(score) / sum(total))` (not a
mean of per-attempt percentages) and the best percentage is the maximum over
attempts of that attempt's own rounded percentage; at the spec's concrete
two-attempt input the summary is `(2, 65, 80)`. Stated for attempt lists whose
question totals are positive, where the claim's formulas are defined. -/
theorem calculateStats_spec (l : List AttemptRow) (hne : l ≠ [])
    (hpos : ∀ a ∈ l, 0 < a.total_questions) :
    (calculateStats l).total = l.length
    ∧ (calculateStats l).avgScore
        = .fin ((⌊100 * (((l.map (fun a => a.score)).sum : ℕ) : ℚ) /
            (((l.map (fun a => a.total_questions)).sum : ℕ) : ℚ) + 1/2⌋ : ℤ) : ℚ)
    ∧ (∃ b : ℚ, (calculateStats l).bestScore = .fin b
        ∧ b ∈ l.map (fun a => ((⌊100 * (a.score : ℚ) / (a.total_questions : ℚ) + 1/2⌋ : ℤ) : ℚ))
        ∧ ∀ x ∈ l.map (fun a => ((⌊100 * (a.score : ℚ) / (a.total_questions : ℚ) + 1/2⌋ : ℤ) : ℚ)),
            x ≤ b)
    ∧ calculateStats [] = ⟨0, .fin 0, .fin 0⟩
    ∧ calculateStats [⟨1, 1, "Beginner", ["Mathematics"], 8, 10⟩,
        ⟨2, 1, "Beginner", ["Mathematics"], 5, 10⟩] = ⟨2, .fin 65, .fin 80⟩ := by
  obtain ⟨a, as, rfl⟩ := List.exists_cons_of_ne_nil hne
  rw [calculateStats_cons]
  refine ⟨rfl, ?_, ?_, rfl, ?_⟩
  · rw [foldl_add_eq_sum, foldl_add_eq_sum]
    simp only [Nat.zero_add]
    exact jsPercent_fin _ _ (sum_pos_of_forall_pos _ _ (List.cons_ne_nil a as) hpos)
  · have hmap : (a :: as).map (fun x =>
        jsRound (jsMul (jsDiv (.fin x.score) (.fin x.total_questions)) (.fin 100)))
        = (a :: as).map (fun x =>
            JsNum.fin ((⌊100 * (x.score : ℚ) / (x.total_questions : ℚ) + 1/2⌋ : ℤ) : ℚ)) :=
      List.map_congr_left (fun x hx => jsPercent_fin _ _ (hpos x hx))
    rw [hmap, jsMaxList_fin_comp]
    obtain ⟨hmem, hle⟩ := foldl_max_spec
      (fun x : AttemptRow => ((⌊100 * (x.score : ℚ) / (x.total_questions : ℚ) + 1/2⌋ : ℤ) : ℚ)) a as
    exact ⟨_, rfl, hmem, hle⟩
  · rw [calculateStats_cons]
    simp only [List.foldl_cons, List.foldl_nil, List.map_cons, List.map_nil, List.length_cons,
      List.length_nil, Stats.mk.injEq]
    norm_num [jsDiv, jsMul, jsRound, jsMaxList, jsMax2]

/-- Witness for C2: the theorem applied at the spec's concrete two-attempt
history gives the summary `(2, 65, 80)`. -/
theorem calculateStats_spec_witness :
    (calculateStats [⟨1, 1, "Beginner", ["Mathematics"], 8, 10⟩,
        ⟨2, 1, "Beginner", ["Mathematics"], 5, 10⟩]).total = 2
    ∧ calculateStats [⟨1, 1, "Beginner", ["Mathematics"], 8, 10⟩,
        ⟨2, 1, "Beginner", ["Mathematics"], 5, 10⟩] = ⟨2, .fin 65, .fin 80⟩ :=
  ⟨(calculateStats_spec [⟨1, 1, "Beginner", ["Mathematics"], 8, 10⟩,
      ⟨2, 1, "Beginner", ["Mathematics"], 5, 10⟩] (by decide)
      (by intro a ha; fin_cases ha <;> decide)).1,
   (calculateStats_spec [⟨1, 1, "Beginner", ["Mathematics"], 8, 10⟩,
      ⟨2, 1, "Beginner", ["Mathematics"], 5, 10⟩] (by decide)
      (by intro a ha; fin_cases ha <;> decide)).2.2.2.2⟩

/-- C10: an attempt with `total_questions = 0` is reachable — when the oracle
returns an empty question array (truthy in JS) and a session exists, a
`quiz_attempts` row is inserted with `total_questions = [].length = 0` — and
for every attempt list containing such an attempt (whose score is necessarily
0), the unguarded per-attempt division `score / total_questions` makes
`bestScore` `NaN` (0/0), which the empty-list guard does not prevent. -/
theorem zero_total_attempt_reachable_breaks_best (skillLevel : String)
    (subjects : List String) (questionCount : Nat) (uid aid : Nat)
    (l : List AttemptRow) (a : AttemptRow) (ha : a ∈ l)
    (hs : a.score = 0) (ht : a.total_questions = 0) :
    (generateQuiz skillLevel subjects questionCount
        ⟨.ok (some []), some uid, .ok aid⟩).attemptCreated
      = some ⟨uid, skillLevel, subjects, questionCount, 0⟩
    ∧ (calculateStats l).bestScore = .nan := by
  constructor
  · rfl
  · have hval : jsRound (jsMul (jsDiv (.fin a.score) (.fin a.total_questions)) (.fin 100))
        = JsNum.nan := by
      rw [hs, ht]
      rfl
    have hmem : JsNum.nan ∈ l.map (fun x =>
        jsRound (jsMul (jsDiv (.fin x.score) (.fin x.total_questions)) (.fin 100))) := by
      rw [← hval]
      exact List.mem_map_of_mem _ ha
    obtain ⟨x, xs, rfl⟩ := List.exists_cons_of_ne_nil (List.ne_nil_of_mem ha)
    rw [calculateStats_cons]
    exact foldl_jsMax2_mem_nan _ _ hmem

/-- Witness for C10 at concrete inputs: the empty-array generation creates an
attempt with `total_questions = 0`, and a history containing the resulting
`score = 0, total_questions = 0` attempt has a `NaN` best percentage. -/
theorem zero_total_attempt_reachable_breaks_best_witness :
    (generateQuiz "Beginner" ["Mathematics"] 5
        ⟨.ok (some []), some 7, .ok 3⟩).attemptCreated
      = some ⟨7, "Beginner", ["Mathematics"], 5, 0⟩
    ∧ (calculateStats [⟨1, 7, "Beginner", ["Mathematics"], 0, 0⟩]).bestScore = .nan :=
  zero_total_attempt_reachable_breaks_best "Beginner" ["Mathematics"] 5 7 3
    [⟨1, 7, "Beginner", ["Mathematics"], 0, 0⟩] ⟨1, 7, "Beginner", ["Mathematics"], 0, 0⟩
    (List.mem_cons_self _ _) rfl rfl

/-- C9: clearing history with an authenticated session deletes every attempt
owned by the caller, and — through the schema's cascade — every question row
of each previously owned attempt: afterwards listing the caller's attempts
returns the empty sequence and listing questions for any previously owned
attempt id returns the empty sequence. -/
theorem clearHistory_removes_owner_data (uid : Nat) (db : Database) :
    listAttempts uid (clearHistory (some uid) db).1 = []
    ∧ ∀ a ∈ db.attempts, a.user_id = uid →
        listQuestions a.id (clearHistory (some uid) db).1 = [] := by
  constructor
  · rw [show (clearHistory (some uid) db).1 = deleteAttempts uid db from rfl]
    rw [listAttempts, deleteAttempts, List.filter_eq_nil_iff]
    intro a ha
    have h2 := (List.mem_filter.mp ha).2
    simp only [Bool.not_eq_true'] at h2
    simp [h2]
  · intro a ha hu
    rw [show (clearHistory (some uid) db).1 = deleteAttempts uid db from rfl]
    rw [listQuestions, deleteAttempts, List.filter_eq_nil_iff]
    intro q hq
    obtain ⟨hq1, hq2⟩ := List.mem_filter.mp hq
    simp only [Bool.not_eq_true'] at hq2
    intro hcontra
    have heq : q.attempt_id = a.id := by simpa using hcontra
    have hmem : q.attempt_id ∈
        (db.attempts.filter (fun x => x.user_id == uid)).map (fun x => x.id) := by
      rw [heq]
      exact List.mem_map_of_mem _ (List.mem_filter.mpr ⟨ha, by simp [hu]⟩)
    rw [← List.elem_iff] at hmem
    rw [List.contains, hmem] at hq2
    cases hq2

/-- Witness for C9 at a concrete store: a user with 4 attempts (and question
rows for them) clears history; listing their attempts and the questions of a
previously owned attempt both return the empty sequence. -/
theorem clearHistory_removes_owner_data_witness :
    listAttempts 7 (clearHistory (some 7)
      ⟨[⟨1, 7, "Beginner", ["Java"], 3, 5⟩, ⟨2, 7, "Advanced", ["DBMS"], 4, 5⟩,
        ⟨3, 7, "Beginner", ["Science"], 0, 5⟩, ⟨4, 7, "Intermediate", ["Java"], 5, 5⟩],
       [⟨10, 1, "q1", "A", some "A"⟩, ⟨11, 2, "q2", "B", none⟩]⟩).1 = []
    ∧ listQuestions 1 (clearHistory (some 7)
      ⟨[⟨1, 7, "Beginner", ["Java"], 3, 5⟩, ⟨2, 7, "Advanced", ["DBMS"], 4, 5⟩,
        ⟨3, 7, "Beginner", ["Science"], 0, 5⟩, ⟨4, 7, "Intermediate", ["Java"], 5, 5⟩],
       [⟨10, 1, "q1", "A", some "A"⟩, ⟨11, 2, "q2", "B", none⟩]⟩).1 = [] :=
  ⟨(clearHistory_removes_owner_data 7
      ⟨[⟨1, 7, "Beginner", ["Java"], 3, 5⟩, ⟨2, 7, "Advanced", ["DBMS"], 4, 5⟩,
        ⟨3, 7, "Beginner", ["Science"], 0, 5⟩, ⟨4, 7, "Intermediate", ["Java"], 5, 5⟩],
       [⟨10, 1, "q1", "A", some "A"⟩, ⟨11, 2, "q2", "B", none⟩]⟩).1,
   (clearHistory_removes_owner_data 7
      ⟨[⟨1, 7, "Beginner", ["Java"], 3, 5⟩, ⟨2, 7, "Advanced", ["DBMS"], 4, 5⟩,
        ⟨3, 7, "Beginner", ["Science"], 0, 5⟩, ⟨4, 7, "Intermediate", ["Java"], 5, 5⟩],
       [⟨10, 1, "q1", "A", some "A"⟩, ⟨11, 2, "q2", "B", none⟩]⟩).2
     ⟨1, 7, "Beginner", ["Java"], 3, 5⟩ (List.mem_cons_self _ _) rfl⟩

/-- Counterexample to C3: with valid inputs (count 5) and a successful oracle
response whose content parses to an empty array, the handler answers 200 and
returns 0 questions, not 5; likewise a parsed array whose sole element is not
a valid question object is returned unvalidated. -/
theorem generator_returns_payload_unvalidated_counterexample :
    (generateQuizHandler (some "key") ⟨"Mathematics", "Intermediate", 5⟩
        ⟨true, 200, .ok (.arr [])⟩).1
      = ⟨200, .obj [("questions", .arr [])]⟩
    ∧ ([] : List Json).length ≠ 5
    ∧ (generateQuizHandler (some "key") ⟨"Mathematics", "Intermediate", 1⟩
        ⟨true, 200, .ok (.arr [.str "bogus"])⟩).1
      = ⟨200, .obj [("questions", .arr [.str "bogus"])]⟩
    ∧ specValidQuestion (.str "bogus") = false :=
  ⟨rfl, by decide, rfl, rfl⟩

/-- C3 as amended: a successful generator call returns exactly the
oracle-parsed JSON payload under `questions`, with no validation of the
question count, the option labels, the correct-answer membership or the
question text — whatever value the content parses to is returned as-is with
status 200. -/
theorem generator_returns_parsed_payload (key : String) (req : GenRequest)
    (oracle : OracleResponse) (j : Json) (hok : oracle.ok = true)
    (hc : oracle.content = .ok j) :
    generateQuizHandler (some key) req oracle = (⟨200, .obj [("questions", j)]⟩, 1) := by
  obtain ⟨ok, status, content⟩ := oracle
  cases hok
  cases hc
  rfl

/-- Witness for the amended C3 at a concrete input. -/
theorem generator_returns_parsed_payload_witness :
    generateQuizHandler (some "key") ⟨"Java", "Beginner", 2⟩ ⟨true, 200, .ok (.arr [.null])⟩
      = (⟨200, .obj [("questions", .arr [.null])]⟩, 1) :=
  generator_returns_parsed_payload "key" ⟨"Java", "Beginner", 2⟩ _ (.arr [.null]) rfl rfl

/-- C6: the generator fails with the configuration error (500, fixed message,
no oracle call) when the credential is absent; forwards 429 with the
rate-limit message and 402 with the billing message; answers 500 with the
`AI Gateway error` message for any other non-success oracle status; answers
500 with the thrown message for a malformed/unparseable success payload; and
makes at most one oracle call (no retries). -/
theorem generator_error_classification :
    (∀ req oracle, generateQuizHandler none req oracle
      = (⟨500, .obj [("error", .str "LOVABLE_API_KEY is not configured")]⟩, 0))
    ∧ (∀ (key : String) req oracle, oracle.ok = false → oracle.status = 429 →
        generateQuizHandler (some key) req oracle
          = (⟨429, .obj [("error", .str "Rate limit exceeded. Please try again later.")]⟩, 1))
    ∧ (∀ (key : String) req oracle, oracle.ok = false → oracle.status = 402 →
        generateQuizHandler (some key) req oracle
          = (⟨402, .obj [("error", .str "Payment required. Please add credits to your workspace.")]⟩, 1))
    ∧ (∀ (key : String) req oracle, oracle.ok = false →
        oracle.status ≠ 429 → oracle.status ≠ 402 →
        generateQuizHandler (some key) req oracle
          = (⟨500, .obj [("error", .str ("AI Gateway error: " ++ toString oracle.status))]⟩, 1))
    ∧ (∀ (key : String) req oracle msg, oracle.ok = true → oracle.content = .error msg →
        generateQuizHandler (some key) req oracle
          = (⟨500, .obj [("error", .str msg)]⟩, 1))
    ∧ (∀ apiKey req oracle, (generateQuizHandler apiKey req oracle).2 ≤ 1) := by
  refine ⟨fun req oracle => rfl, ?_, ?_, ?_, ?_, ?_⟩
  · intro key req oracle hok h429
    obtain ⟨ok, status, content⟩ := oracle
    cases hok
    cases h429
    rfl
  · intro key req oracle hok h402
    obtain ⟨ok, status, content⟩ := oracle
    cases hok
    cases h402
    rfl
  · intro key req oracle hok h429 h402
    obtain ⟨ok, status, content⟩ := oracle
    cases hok
    simp only at h429 h402
    simp [generateQuizHandler, h429, h402]
  · intro key req oracle msg hok hc
    obtain ⟨ok, status, content⟩ := oracle
    cases hok
    cases hc
    rfl
  · intro apiKey req oracle
    rcases apiKey with _ | key
    · exact Nat.zero_le 1
    · obtain ⟨ok, status, content⟩ := oracle
      rcases ok with _ | _
      · by_cases h429 : status = 429
        · simp [generateQuizHandler, h429]
        · by_cases h402 : status = 402
          · simp [generateQuizHandler, h429, h402]
          · simp [generateQuizHandler, h429, h402]
      · rcases content with msg | j
        · simp [generateQuizHandler]
        · simp [generateQuizHandler]

/-- Witness for C6: each classification applied at a concrete input. -/
theorem generator_error_classification_witness :
    generateQuizHandler none ⟨"Java", "Beginner", 2⟩ ⟨true, 200, .ok .null⟩
      = (⟨500, .obj [("error", .str "LOVABLE_API_KEY is not configured")]⟩, 0)
    ∧ generateQuizHandler (some "key") ⟨"Java", "Beginner", 2⟩ ⟨false, 429, .ok .null⟩
      = (⟨429, .obj [("error", .str "Rate limit exceeded. Please try again later.")]⟩, 1)
    ∧ generateQuizHandler (some "key") ⟨"Java", "Beginner", 2⟩ ⟨false, 402, .ok .null⟩
      = (⟨402, .obj [("error", .str "Payment required. Please add credits to your workspace.")]⟩, 1)
    ∧ generateQuizHandler (some "key") ⟨"Java", "Beginner", 2⟩ ⟨false, 503, .ok .null⟩
      = (⟨500, .obj [("error", .str ("AI Gateway error: " ++ toString 503))]⟩, 1)
    ∧ generateQuizHandler (some "key") ⟨"Java", "Beginner", 2⟩
        ⟨true, 200, .error "Unexpected token"⟩
      = (⟨500, .obj [("error", .str "Unexpected token")]⟩, 1) :=
  ⟨generator_error_classification.1 _ _,
   generator_error_classification.2.1 "key" _ _ rfl rfl,
   generator_error_classification.2.2.1 "key" _ _ rfl rfl,
   generator_error_classification.2.2.2.1 "key" _ _ rfl (by decide) (by decide),
   generator_error_classification.2.2.2.2.1 "key" _ _ "Unexpected token" rfl rfl⟩
